import Mathlib

/-
Verification of `tools/cmake/convert_to_cmake.py`: a shallow embedding of the
converter (variable-resolver output parsing, component metadata normalization,
the source-list/source-dirs equivalence classifier, and the descriptor
emitters), together with theorems settling the specified behaviours.

The external `make` oracle is modelled by its observable interface: the
subprocess returncode and stdout lines (for `get_make_variables`), or the
already-parsed variable map (for the per-directory callers).  The filesystem is
modelled as the finite set of existing file and directory paths, written in
normalized form; `glob` and the `os.path` helpers are transcribed against that
model following POSIX path semantics.
-/

set_option maxRecDepth 4000

namespace ConvertToCmake

/-- A variable map as produced by parsing the oracle output: an association
list with unique keys, insertion-ordered like a Python `dict`. -/
abbrev VarMap := List (String × String)

/-- Python `d.get(k)`: first (and only) binding of `k`. -/
def getVar : VarMap → String → Option String
  | [], _ => none
  | (k0, v0) :: rest, k => if k0 = k then some v0 else getVar rest k

/-- Python `d[k] = v`: overwrite in place, or append a new binding. -/
def dictInsert : VarMap → String → String → VarMap
  | [], k, v => [(k, v)]
  | (k0, v0) :: rest, k, v =>
    if k0 = k then (k0, v) :: rest else (k0, v0) :: dictInsert rest k v

/-- Helper for `pySplit`: accumulates the current field in reverse. -/
def pySplitAux (c : Char) : List Char → List Char → List String
  | [], cur => [String.mk cur.reverse]
  | x :: xs, cur =>
    if x = c then String.mk cur.reverse :: pySplitAux c xs []
    else pySplitAux c xs (x :: cur)

/-- Python `s.split(sep)` for a one-character separator: keeps empty fields,
and `"".split(sep) = [""]`. -/
def pySplit (c : Char) (s : String) : List String := pySplitAux c s.data []

/-- Python `sep.join(xs)`. -/
def joinWith (sep : String) : List String → String
  | [] => ""
  | [x] => x
  | x :: y :: rest => x ++ sep ++ joinWith sep (y :: rest)

/-- `s.startswith(p)`. -/
def strStartsWith (s p : String) : Bool := p.data.isPrefixOf s.data

/-- `s.endswith(p)`. -/
def strEndsWith (s p : String) : Bool := p.data.reverse.isPrefixOf s.data.reverse

/-- The whitespace characters stripped by Python `str.strip()`. -/
def isPySpace (c : Char) : Bool :=
  c == ' ' || c == '\t' || c == '\n' || c == '\r' || c == '\x0b' || c == '\x0c'

/-- Python `str.strip()`: remove leading and trailing whitespace. -/
def pyStrip (s : String) : String :=
  String.mk (((s.data.dropWhile isPySpace).reverse.dropWhile isPySpace).reverse)

/-- Python `str.rstrip()`: remove trailing whitespace only.  Used to state the
specification sentence about right-trimming, for comparison with `pyStrip`. -/
def pyRstrip (s : String) : String :=
  String.mk ((s.data.reverse.dropWhile isPySpace).reverse)

/-- `posixpath.join` restricted to two components: a leading slash on `b`
restarts the path; otherwise a separator is inserted unless `a` is empty or
already ends with one. -/
def pathJoin (a b : String) : String :=
  if strStartsWith b "/" then b
  else if a == "" || strEndsWith a "/" then a ++ b
  else a ++ ("/" ++ b)

/-- `os.path.join(a, b, c)`. -/
def pathJoin3 (a b c : String) : String := pathJoin (pathJoin a b) c

/-- `posixpath.normpath`: collapse empty and `.` components, resolve `..`
against preceding components, preserve up to two leading slashes. -/
def normpath (p : String) : String :=
  if p == "" then "." else
  let initialSlashes : Nat :=
    if strStartsWith p "/" then
      (if strStartsWith p "//" && !(strStartsWith p "///") then 2 else 1)
    else 0
  let comps := pySplit '/' p
  let newComps := comps.foldl (fun acc comp =>
    if comp == "" || comp == "." then acc
    else if comp != ".." || (initialSlashes == 0 && acc.isEmpty) ||
        (acc.getLast? == some "..") then acc ++ [comp]
    else if !acc.isEmpty then acc.dropLast
    else acc) []
  let path := String.mk (List.replicate initialSlashes '/') ++ joinWith "/" newComps
  if path == "" then "." else path

/-- `posixpath.basename`: everything after the last slash. -/
def basenameOf (p : String) : String :=
  String.mk ((p.data.reverse.takeWhile (fun c => c != '/')).reverse)

/-- The directory part of a path or glob pattern: everything strictly before
the last slash (empty when there is none).  Both glob patterns and filesystem
entries are split with this, so matching compares like with like. -/
def globDirOf (p : String) : String :=
  match p.data.reverse.dropWhile (fun c => c != '/') with
  | [] => ""
  | _ :: rest => String.mk rest.reverse

/-- Index of the last occurrence of `c`, accumulator form. -/
def lastIdxAux (c : Char) : List Char → Nat → Option Nat → Option Nat
  | [], _, res => res
  | x :: xs, i, res => lastIdxAux c xs (i + 1) (if x = c then some i else res)

/-- Index of the last occurrence of `c` in `l`, if any. -/
def lastIdx (c : Char) (l : List Char) : Option Nat := lastIdxAux c l 0 none

/-- `posixpath.splitext(p)[0]`: drop the extension after the last dot, provided
that dot lies inside the basename and the basename has a non-dot character
before it (so `.bashrc` keeps its name). -/
def splitextStem (p : String) : String :=
  let l := p.data
  match lastIdx '.' l, lastIdx '/' l with
  | none, _ => p
  | some di, sep =>
    let ok : Bool := match sep with | none => true | some s => decide (s < di)
    if ok then
      let si : Nat := match sep with | none => 0 | some s => s + 1
      if ((l.take di).drop si).any (fun c => c != '.') then String.mk (l.take di)
      else p
    else p

/-- The filesystem model: the existing file paths and directory paths, each
written in normalized form. -/
structure FS where
  files : List String
  dirs : List String
  deriving DecidableEq

/-- All existing entries. -/
def fsEntries (fs : FS) : List String := fs.files ++ fs.dirs

/-- `os.path.exists`. -/
def fsExists (fs : FS) (p : String) : Bool := (fsEntries fs).contains p

/-- Whether a directory-entry name matches one of the two glob basename
patterns used by the converter (`*.[cS]` and `*.cpp`).  Per glob semantics a
name starting with a dot is never matched by a `*` pattern. -/
def globBaseMatch (pat name : String) : Bool :=
  if strStartsWith name "." then false
  else if pat == "*.[cS]" then strEndsWith name ".c" || strEndsWith name ".S"
  else if pat == "*.cpp" then strEndsWith name ".cpp"
  else false

/-- Model of `glob.glob` for the patterns `<dir>/*.[cS]` and `<dir>/*.cpp`:
the existing entries whose directory part equals the pattern's directory part
and whose basename matches the pattern's basename. -/
def globPat (fs : FS) (pat : String) : List String :=
  (fsEntries fs).filter (fun f =>
    globDirOf f == globDirOf pat && globBaseMatch (basenameOf pat) (basenameOf f))

/-- Line 43: the denylist of make built-in / bookkeeping variables. -/
def BUILT_IN_VARS : List String := ["MAKEFILE_LIST", "SHELL", "CURDIR", "MAKEFLAGS"]

/-- Line 50: the semantics of `re.match(r"(?P<var>[^ ]+) :?= (?P<val>.+)", line)`.
The variable part is the maximal nonempty spaceless prefix; it must be followed
by a literal `" := "` or `" = "`, and the (raw, untrimmed) value is the
nonempty remainder of the line. -/
def matchVarLine (line : String) : Option (String × String) :=
  let l := line.data
  let w := l.takeWhile (fun c => c != ' ')
  if w.isEmpty then none else
  let rest := l.drop w.length
  if [' ', ':', '=', ' '].isPrefixOf rest then
    if (rest.drop 4).isEmpty then none
    else some (String.mk w, String.mk (rest.drop 4))
  else if [' ', '=', ' '].isPrefixOf rest then
    if (rest.drop 3).isEmpty then none
    else some (String.mk w, String.mk (rest.drop 3))
  else none

/-- Line 46: the marker the oracle prints before a directory-level definition. -/
def isMarkerLine (l : String) : Bool := strStartsWith l "# makefile"

/-- Lines 50-53: capture one candidate line into the result dict, value
stripped, denylisted names excluded. -/
def captureStep (acc : VarMap) (l : String) : VarMap :=
  match matchVarLine l with
  | some (k, raw) =>
    if BUILT_IN_VARS.contains k then acc else dictInsert acc k (pyStrip raw)
  | none => acc

/-- Lines 41-53: the parsing loop.  `flag` is `next_is_makefile`: it is set by
a marker line and consumed (reset) by the very next line. -/
def parseAux : Bool → VarMap → List String → VarMap
  | _, acc, [] => acc
  | flag, acc, l :: ls =>
    if isMarkerLine l then parseAux true acc ls
    else if flag then parseAux false (captureStep acc l) ls
    else parseAux false acc ls

/-- Lines 41-55: parse the oracle's stdout into a variable map. -/
def parseMakeOutput (lines : List String) : VarMap := parseAux false [] lines

/-- Lines 15-55, `get_make_variables`: the subprocess is modelled by its
returncode and stdout lines.  A non-zero exit raises unless the caller passed
`expected_failure=True`; otherwise the stdout is parsed. -/
def get_make_variables (returncode : Int) (expected_failure : Bool)
    (outputLines : List String) : Except String VarMap :=
  if !expected_failure && returncode != 0 then
    Except.error ("Unexpected make failure, result " ++ toString returncode)
  else Except.ok (parseMakeOutput outputLines)

/-- Line 76: the warning printed for an object stem with no source file. -/
def warnMsg (component_path stem : String) : String :=
  "WARNING: Can\x27t find source file for component " ++
    (component_path ++ (" COMPONENT_OBJS " ++ stem))

/-- Lines 71-77, `find_src`: strip the object extension and probe for the stem
with extension `c`, `cpp`, `S`, in that order, inside the component dir. -/
def find_src (fs : FS) (component_path obj0 : String) : Option String :=
  let obj := splitextStem obj0
  (["c", "cpp", "S"].find? (fun ext =>
      fsExists fs (pathJoin component_path obj ++ ("." ++ ext)))).map
    (fun ext => obj ++ ("." ++ ext))

/-- Lines 57-90, `get_component_variables`: the resolver output for the
component is passed in as `make_vars` (the oracle call is tolerant, so it
always yields a map).  Returns the normalized map together with the warnings
printed while converting `COMPONENT_OBJS` stems. -/
def get_component_variables (fs : FS) (component_path : String)
    (make_vars : VarMap) : VarMap × List String :=
  let step1 :=
    match getVar make_vars "COMPONENT_OBJS" with
    | some objs =>
      let objList := pySplit ' ' objs
      let srcs := objList.filterMap (find_src fs component_path)
      let warns := (objList.filter (fun o => (find_src fs component_path o).isNone)).map
        (fun o => warnMsg component_path (splitextStem o))
      (dictInsert make_vars "COMPONENT_SRCS" (joinWith " " srcs), warns)
    | none =>
      (dictInsert make_vars "COMPONENT_SRCDIRS"
        ((getVar make_vars "COMPONENT_SRCDIRS").getD "."), ([] : List String))
  (dictInsert step1.1 "COMPONENT_ADD_INCLUDEDIRS"
    ((getVar step1.1 "COMPONENT_ADD_INCLUDEDIRS").getD "include"), step1.2)

/-- The normalized variable map of a component (first projection of
`get_component_variables`). -/
def normVars (fs : FS) (cp : String) (resolved : VarMap) : VarMap :=
  (get_component_variables fs cp resolved).1

/-- Lines 170-173: glob every recognized source extension across every entry
of `COMPONENT_SRCDIRS` (defaulting to the empty string, whose single split
field makes the glob run over the component directory itself). -/
def componentAllSrcs (fs : FS) (component_path : String) (v : VarMap) : List String :=
  ((pySplit ' ' ((getVar v "COMPONENT_SRCDIRS").getD "")).map (fun d =>
    globPat fs (normpath (pathJoin3 component_path d "*.[cS]")) ++
    globPat fs (normpath (pathJoin3 component_path d "*.cpp")))).flatten

/-- Line 174: the explicit source list, joined to the component dir and
normalized. -/
def absComponentSrcs (component_path srcs : String) : List String :=
  (pySplit ' ' srcs).map (fun p => normpath (pathJoin component_path p))

/-- Python `set(a) == set(b)`. -/
def listSetEq (a b : List String) : Bool :=
  a.all (fun x => b.contains x) && b.all (fun x => a.contains x)

/-- Lines 167-176: the `component_srcdirs` value carried to emission.  It is
non-`None` exactly when an explicit source list exists, the glob set equals
its normalized set, and `v.get("COMPONENT_SRCDIRS")` itself is non-`None`. -/
def classifySrcdirs (fs : FS) (component_path : String) (v : VarMap) : Option String :=
  match getVar v "COMPONENT_SRCS" with
  | none => none
  | some srcs =>
    if listSetEq (componentAllSrcs fs component_path v) (absComponentSrcs component_path srcs) then
      getVar v "COMPONENT_SRCDIRS"
    else none

/-- Line 182: the include-directories declaration. -/
def inclLine (v : VarMap) : String :=
  "set(COMPONENT_ADD_INCLUDEDIRS " ++
    (((getVar v "COMPONENT_ADD_INCLUDEDIRS").getD "") ++ ")\n\n")

/-- Lines 191-192: the optional compile-options directive. -/
def cflagsLines (v : VarMap) : List String :=
  match getVar v "CFLAGS" with
  | some c => ["component_compile_options(" ++ (c ++ ")\n")]
  | none => []

/-- Lines 183-190: exactly one of the srcdirs form, the srcs form, or the
config-only registration. -/
def bodyLines (srcdirs srcs : Option String) : List String :=
  match srcdirs, srcs with
  | some d, _ => ["set(COMPONENT_SRCDIRS " ++ (d ++ ")\n\n"), "register_component()\n"]
  | none, some s => ["set(COMPONENT_SRCS " ++ (s ++ ")\n\n"), "register_component()\n"]
  | none, none => ["register_config_only_component()\n"]

/-- Lines 181-192: the successive `f.write` payloads of the emitted component
descriptor. -/
def emittedLines (fs : FS) (component_path : String) (v : VarMap) : List String :=
  inclLine v ::
    (bodyLines (classifySrcdirs fs component_path v) (getVar v "COMPONENT_SRCS") ++
      cflagsLines v)

/-- Whether some emitted write begins with the given declaration head. -/
def hasDecl (pre : String) (lines : List String) : Bool :=
  lines.any (fun l => strStartsWith l pre)

/-- Result of converting one component: whether it was skipped, how many
oracle subprocesses were spawned for it, the file written (path and write
payloads), and the messages printed. -/
structure CompResult where
  skipped : Bool
  resolverCalls : Nat
  written : Option (String × List String)
  msgs : List String
  deriving DecidableEq

/-- Lines 155-194, `convert_component`: skip (with a notice, consulting
nothing) when the target descriptor already exists; otherwise resolve the
component's variables through the oracle (`resolved` is its parsed output;
`resolverCalls` records the spawn) and write the descriptor. -/
def convert_component (fs : FS) (project_path component_path : String)
    (resolved : VarMap) : CompResult :=
  let cmakelists_path := pathJoin component_path "CMakeLists.txt"
  if fsExists fs cmakelists_path then
    { skipped := true, resolverCalls := 0, written := none,
      msgs := ["Skipping already-converted component " ++ (cmakelists_path ++ "...")] }
  else
    let vw := get_component_variables fs component_path resolved
    { skipped := false, resolverCalls := 1,
      written := some (cmakelists_path, emittedLines fs component_path vw.1),
      msgs := vw.2 ++ ["Converted " ++ cmakelists_path] }

/-- Length of the common prefix of two component lists. -/
def commonLen : List String → List String → Nat
  | a :: as, b :: bs => if a = b then commonLen as bs + 1 else 0
  | _, _ => 0

/-- `posixpath.relpath`, modelled for already-absolute normalized inputs (the
converter feeds it `os.path.normpath` outputs): compare slash-separated
components, prefix with `..` for the unshared part of `start`. -/
def relpath (path start : String) : String :=
  let pl := (pySplit '/' (normpath path)).filter (fun x => x != "")
  let sl := (pySplit '/' (normpath start)).filter (fun x => x != "")
  let i := commonLen sl pl
  let rel := List.replicate (sl.length - i) ".." ++ pl.drop i
  if rel.isEmpty then "." else joinWith "/" rel

/-- Lines 139-146: the fixed boilerplate preamble of the project descriptor. -/
def projectPreamble : String :=
  "\n# (Automatically converted from project Makefile by convert_to_cmake.py.)\n\n# The following four lines of boilerplate have to be in your project\x27s CMakeLists\n# in this exact order for cmake to work correctly\ncmake_minimum_required(VERSION 3.5)\n\n"

/-- Lines 148-150: the include directive pulling in the shared build rules. -/
def projectIncludeLine : String :=
  "\ninclude($ENV\x7bIDF_PATH\x7d/tools/cmake/project.cmake)\n"

/-- Lines 138-151: the successive `f.write` payloads of the emitted project
descriptor. -/
def projectFileLines (main_srcs_rel : List String) (project_name : String) : List String :=
  [projectPreamble,
   "set(MAIN_SRCS " ++ (joinWith " " main_srcs_rel ++ ")\n"),
   projectIncludeLine,
   "project(" ++ (project_name ++ ")\n")]

/-- Lines 129-133: rewrite the entry component's sources from
component-relative to project-relative paths. -/
def mainRelSrcs (project_path main_component_path srcsStr : String) : List String :=
  (pySplit ' ' srcsStr).map (fun m =>
    relpath (normpath (pathJoin main_component_path m)) project_path)

/-- Result of a project conversion: the fatal error (if any), the files
written before stopping, and the messages printed. -/
structure ProjResult where
  error : Option String
  writtenFiles : List (String × List String)
  msgs : List String
  deriving DecidableEq

/-- Lines 123-124: the component loop, threading each written descriptor into
the filesystem before converting the next component. -/
def convertComponents (fs : FS) (project_path : String) (paths : List String)
    (compVars : String → VarMap) : FS × List (String × List String) × List String :=
  match paths with
  | [] => (fs, [], [])
  | p :: ps =>
    let r := convert_component fs project_path p (compVars p)
    match r.written with
    | some pl =>
      let rest := convertComponents { fs with files := fs.files ++ [pl.1] }
        project_path ps compVars
      (rest.1, pl :: rest.2.1, r.msgs ++ rest.2.2)
    | none =>
      let rest := convertComponents fs project_path ps compVars
      (rest.1, rest.2.1, r.msgs ++ rest.2.2)

/-- Lines 93-153, `convert_project`.  `project_vars` is the parsed (tolerant)
oracle output for the project Makefile; `compVars` gives the parsed oracle
output for each component path.  When no component path has basename `main`,
the code prints a warning and installs a dummy `COMPONENT_SRCS`; but
`main_component_path` is then never assigned (the `IndexError` fires on the
subscript, before the assignment at line 111), so line 131 raises an
unbound-local `NameError` after the component loop has already written its
descriptors — modelled by the corresponding error value. -/
def convert_project (fs : FS) (project_path : String) (project_vars : VarMap)
    (compVars : String → VarMap) : ProjResult :=
  if !(fsExists fs project_path) then
    { error := some ("Project directory \x27" ++ (project_path ++ "\x27 not found")),
      writtenFiles := [], msgs := [] }
  else if !(fsExists fs (pathJoin project_path "Makefile")) then
    { error := some ("Directory \x27" ++
        (project_path ++ "\x27 doesn\x27t contain a project Makefile")),
      writtenFiles := [], msgs := [] }
  else
  let project_cmakelists := pathJoin project_path "CMakeLists.txt"
  if fsExists fs project_cmakelists then
    { error := some "This project already has a CMakeLists.txt file",
      writtenFiles := [], msgs := [] }
  else if (getVar project_vars "PROJECT_NAME").isNone then
    { error := some ("PROJECT_NAME does not appear to be defined in IDF project Makefile at "
        ++ project_path),
      writtenFiles := [], msgs := [] }
  else
  match getVar project_vars "COMPONENT_PATHS" with
  | none => { error := some "KeyError: COMPONENT_PATHS", writtenFiles := [], msgs := [] }
  | some cpstr =>
    let component_paths := pySplit ' ' cpstr
    let mainsHead := (component_paths.filter (fun p => basenameOf p == "main")).head?
    let mainInfo : Option String × VarMap × List String :=
      match mainsHead with
      | some mp =>
        (some mp, normVars fs mp (compVars mp), (get_component_variables fs mp (compVars mp)).2)
      | none =>
        (none, [("COMPONENT_SRCS", "")],
          ["WARNING: Project has no \x27main\x27 component, but CMake-based system requires at least one file in MAIN_SRCS..."])
    let others := component_paths.filter (fun p => basenameOf p != "main")
    let conv := convertComponents fs project_path others compVars
    match getVar mainInfo.2.1 "COMPONENT_SRCS" with
    | none =>
      { error := some "KeyError: COMPONENT_SRCS", writtenFiles := conv.2.1,
        msgs := mainInfo.2.2 ++ conv.2.2 }
    | some srcsStr =>
      match mainInfo.1 with
      | none =>
        { error := some "NameError: main_component_path referenced before assignment",
          writtenFiles := conv.2.1, msgs := mainInfo.2.2 ++ conv.2.2 }
      | some mp =>
        let project_name := (getVar project_vars "PROJECT_NAME").getD ""
        { error := none,
          writtenFiles := conv.2.1 ++
            [(project_cmakelists,
              projectFileLines (mainRelSrcs project_path mp srcsStr) project_name)],
          msgs := mainInfo.2.2 ++ conv.2.2 ++ ["Converted project " ++ project_cmakelists] }

/-- A variable binding captured by the parser: some line of the output matches
the definition pattern and immediately follows a marker line, and the stored
value is the stripped raw capture. -/
def CapturedIn (lines : List String) (k v : String) : Prop :=
  ∃ pre mark cand post raw, lines = pre ++ mark :: cand :: post ∧
    isMarkerLine mark = true ∧ matchVarLine cand = some (k, raw) ∧ v = pyStrip raw

/- Concrete scenarios used by the counterexamples and witnesses. -/

/-- A component whose only source `foo.c` is named through `COMPONENT_OBJS`,
with no `COMPONENT_SRCDIRS` declared. -/
def fsObjsOnly : FS := ⟨["/proj/comp/foo.c"], ["/proj", "/proj/comp"]⟩

/-- Its resolved variables: the explicit source list and the object list. -/
def resolvedObjsOnly : VarMap :=
  [("COMPONENT_SRCS", "foo.c"), ("COMPONENT_OBJS", "foo.o")]

/-- A component whose single explicit source `a.c` is everything in its
directory. -/
def fsOneSrc : FS := ⟨["/p/c/a.c"], ["/p", "/p/c"]⟩

/-- Its resolved variables: just the explicit source list. -/
def resolvedOneSrc : VarMap := [("COMPONENT_SRCS", "a.c")]

/-- A component directory holding `a.c` and `b.c` while only `a.c` is listed. -/
def fsTwoSrc : FS := ⟨["/p/c2/a.c", "/p/c2/b.c"], ["/p", "/p/c2"]⟩

/-- Its resolved variables: the partial explicit source list. -/
def resolvedTwoSrc : VarMap := [("COMPONENT_SRCS", "a.c")]

/-- An object list whose second stem has no source file on disk. -/
def fsObjProbe : FS := ⟨["/c/x.c"], ["/c"]⟩

/-- Its resolved variables. -/
def resolvedObjProbe : VarMap := [("COMPONENT_OBJS", "x.o y.o")]

/-- An already-converted project: both the project and component `ca` carry a
`CMakeLists.txt`; `cb` does not. -/
def fsConverted : FS :=
  ⟨["/pr/Makefile", "/pr/CMakeLists.txt", "/pr/ca/CMakeLists.txt"],
   ["/pr", "/pr/ca", "/pr/cb"]⟩

/-- A project with a single component `compA` and no `main` component. -/
def fsNoMain : FS := ⟨["/proj/Makefile"], ["/proj", "/proj/compA"]⟩

/-- Its project-level resolved variables. -/
def pvarsNoMain : VarMap := [("PROJECT_NAME", "demo"), ("COMPONENT_PATHS", "compA")]

/-- Component resolver outputs for the no-main project: nothing resolves. -/
def cvsEmpty : String → VarMap := fun _ => []

/-- A project with only the entry component `main`, resolving `main.c`. -/
def fsMainOnly : FS := ⟨["/proj/Makefile", "/proj/main/main.c"], ["/proj", "/proj/main"]⟩

/-- Its project-level resolved variables. -/
def pvarsMainOnly : VarMap :=
  [("PROJECT_NAME", "demo"), ("COMPONENT_PATHS", "/proj/main")]

/-- Component resolver outputs for the main-only project. -/
def cvsMainOnly : String → VarMap := fun _ => [("COMPONENT_SRCS", "main.c")]

/- Helper lemmas about the dictionary and string primitives. -/

theorem getVar_dictInsert_self (d : VarMap) (k v : String) :
    getVar (dictInsert d k v) k = some v := by
  induction d with
  | nil => simp [dictInsert, getVar]
  | cons h t ih =>
    obtain ⟨k0, v0⟩ := h
    by_cases hk : k0 = k
    · simp [dictInsert, getVar, hk]
    · simp [dictInsert, getVar, hk, ih]

theorem getVar_dictInsert_ne (d : VarMap) (k k2 v : String) (h : k2 ≠ k) :
    getVar (dictInsert d k v) k2 = getVar d k2 := by
  induction d with
  | nil => simp [dictInsert, getVar, Ne.symm h]
  | cons hd t ih =>
    obtain ⟨k0, v0⟩ := hd
    by_cases hk : k0 = k
    · subst hk
      simp [dictInsert, getVar, Ne.symm h]
    · simp [dictInsert, getVar, hk, ih]

theorem getVar_dictInsert_cases (d : VarMap) (k k2 v v2 : String)
    (h : getVar (dictInsert d k v) k2 = some v2) :
    (k2 = k ∧ v2 = v) ∨ getVar d k2 = some v2 := by
  by_cases hk : k2 = k
  · subst hk
    rw [getVar_dictInsert_self] at h
    exact Or.inl ⟨rfl, (Option.some_inj.mp h).symm⟩
  · rw [getVar_dictInsert_ne _ _ _ _ hk] at h
    exact Or.inr h

theorem strData_append (a b : String) : (a ++ b).data = a.data ++ b.data := by
  cases a
  cases b
  rfl

theorem isPrefixOf_append_false (p a b : List Char)
    (h1 : p.isPrefixOf a = false) (h2 : a.isPrefixOf p = false) :
    p.isPrefixOf (a ++ b) = false := by
  induction p generalizing a with
  | nil => simp [List.isPrefixOf] at h1
  | cons x xs ih =>
    cases a with
    | nil => simp [List.isPrefixOf] at h2
    | cons y ys =>
      by_cases hxy : x = y
      · subst hxy
        simp only [List.cons_append, List.isPrefixOf, beq_self_eq_true,
          Bool.true_and] at h1 h2 ⊢
        exact ih ys h1 h2
      · simp only [List.cons_append, List.isPrefixOf]
        have hb : (x == y) = false := by
          simp [hxy]
        simp [hb]

theorem strStartsWith_append_false (a b p : String)
    (h1 : strStartsWith a p = false) (h2 : strStartsWith p a = false) :
    strStartsWith (a ++ b) p = false := by
  unfold strStartsWith at h1 h2 ⊢
  rw [strData_append]
  exact isPrefixOf_append_false _ _ _ h1 h2

/- Lemmas tracing one parsed entry back to a captured line (claim C5). -/

theorem captureStep_lookup (acc : VarMap) (l k v : String)
    (h : getVar (captureStep acc l) k = some v) :
    getVar acc k = some v ∨
      (BUILT_IN_VARS.contains k = false ∧
        ∃ raw, matchVarLine l = some (k, raw) ∧ v = pyStrip raw) := by
  unfold captureStep at h
  cases hm : matchVarLine l with
  | none =>
    rw [hm] at h
    exact Or.inl h
  | some pr =>
    obtain ⟨k0, raw⟩ := pr
    rw [hm] at h
    dsimp only at h
    by_cases hb : BUILT_IN_VARS.contains k0 = true
    · rw [if_pos hb] at h
      exact Or.inl h
    · rw [if_neg hb] at h
      rcases getVar_dictInsert_cases _ _ _ _ _ h with ⟨hk, hv⟩ | hacc
      · subst hk
        exact Or.inr ⟨Bool.not_eq_true _ ▸ (Bool.eq_false_iff.mpr hb), raw, rfl, hv⟩
      · exact Or.inl hacc

theorem capturedIn_cons (l : String) (ls : List String) (k v : String)
    (h : CapturedIn ls k v) : CapturedIn (l :: ls) k v := by
  obtain ⟨pre, mark, cand, post, raw, hls, hm, hmv, hv⟩ := h
  exact ⟨l :: pre, mark, cand, post, raw, by rw [hls]; rfl, hm, hmv, hv⟩

theorem parseAux_lookup (ls : List String) : ∀ (flag : Bool) (acc : VarMap) (k v : String),
    getVar (parseAux flag acc ls) k = some v →
    getVar acc k = some v ∨
      (BUILT_IN_VARS.contains k = false ∧
        ((flag = true ∧ ∃ cand post raw, ls = cand :: post ∧
            matchVarLine cand = some (k, raw) ∧ v = pyStrip raw) ∨
          CapturedIn ls k v)) := by
  induction ls with
  | nil =>
    intro flag acc k v h
    simp only [parseAux] at h
    exact Or.inl h
  | cons l ls ih =>
    intro flag acc k v h
    simp only [parseAux] at h
    by_cases hm : isMarkerLine l = true
    · rw [if_pos hm] at h
      rcases ih true acc k v h with hacc | ⟨hb, hmid | hcap⟩
      · exact Or.inl hacc
      · obtain ⟨-, cand, post, raw, hls, hmv, hv⟩ := hmid
        exact Or.inr ⟨hb, Or.inr ⟨[], l, cand, post, raw, by simp [hls], hm, hmv, hv⟩⟩
      · exact Or.inr ⟨hb, Or.inr (capturedIn_cons _ _ _ _ hcap)⟩
    · rw [if_neg hm] at h
      cases flag with
      | true =>
        rw [if_pos rfl] at h
        rcases ih false (captureStep acc l) k v h with hacc | ⟨hb, hmid | hcap⟩
        · rcases captureStep_lookup _ _ _ _ hacc with hacc2 | ⟨hb, raw, hmv, hv⟩
          · exact Or.inl hacc2
          · exact Or.inr ⟨hb, Or.inl ⟨rfl, l, ls, raw, rfl, hmv, hv⟩⟩
        · obtain ⟨hfalse, -⟩ := hmid
          cases hfalse
        · exact Or.inr ⟨hb, Or.inr (capturedIn_cons _ _ _ _ hcap)⟩
      | false =>
        simp only [if_false, Bool.false_eq_true] at h
        rcases ih false acc k v h with hacc | ⟨hb, hmid | hcap⟩
        · exact Or.inl hacc
        · obtain ⟨hfalse, -⟩ := hmid
          cases hfalse
        · exact Or.inr ⟨hb, Or.inr (capturedIn_cons _ _ _ _ hcap)⟩

/-- C5 (amended): for every oracle output, the parsed mapping contains an entry
only for lines of the form `<name> := <value>` or `<name> = <value>` that
immediately follow a directory-level-definition marker line, with the value
stripped of leading and trailing whitespace (Python `str.strip()`, not only a
right-trim), and it never contains a name from the fixed denylist
(MAKEFILE_LIST, SHELL, CURDIR, MAKEFLAGS) even when such a name appears on a
captured line. -/
theorem parse_only_marked_definitions (lines : List String) (k v : String)
    (h : getVar (parseMakeOutput lines) k = some v) :
    BUILT_IN_VARS.contains k = false ∧ CapturedIn lines k v := by
  rcases parseAux_lookup lines false [] k v h with hacc | ⟨hb, hmid | hcap⟩
  · simp [getVar] at hacc
  · obtain ⟨hfalse, -⟩ := hmid
    cases hfalse
  · exact ⟨hb, hcap⟩

/-- Witness for `parse_only_marked_definitions` at a concrete output. -/
theorem parse_only_marked_definitions_witness :
    BUILT_IN_VARS.contains "FOO" = false ∧
      CapturedIn ["# makefile", "FOO := bar "] "FOO" "bar" :=
  parse_only_marked_definitions ["# makefile", "FOO := bar "] "FOO" "bar" (by decide)

/-- C5 counterexample: the claim says the stored value is right-trimmed, but
the code calls `str.strip()`.  On the captured line `FOO =  bar` the raw value
is `" bar"`; right-trimming would keep the leading space, yet the mapping
stores `"bar"`. -/
theorem parse_value_not_rtrimmed :
    matchVarLine "FOO =  bar" = some ("FOO", " bar") ∧
      pyRstrip " bar" = " bar" ∧
      getVar (parseMakeOutput ["# makefile", "FOO =  bar"]) "FOO" = some "bar" ∧
      ("bar" : String) ≠ " bar" := by
  decide

/-- C4: the Variable Resolver fails if and only if the oracle process exited
non-zero and the caller did not declare tolerance; with tolerance declared, a
non-zero exit still yields the mapping parsed from whatever output was
produced. -/
theorem resolver_error_iff (rc : Int) (ef : Bool) (lines : List String) :
    ((∃ e, get_make_variables rc ef lines = Except.error e) ↔ (rc ≠ 0 ∧ ef = false)) ∧
      (ef = true → get_make_variables rc ef lines = Except.ok (parseMakeOutput lines)) := by
  unfold get_make_variables
  cases ef with
  | true => simp
  | false =>
    by_cases h : rc = 0
    · subst h
      simp
    · simp [h, bne_iff_ne]

/-- Witness for `resolver_error_iff`: a tolerant caller with a failing oracle
still gets the parsed mapping. -/
theorem resolver_error_iff_witness :
    get_make_variables 2 true ["# makefile", "A := b"] =
      Except.ok (parseMakeOutput ["# makefile", "A := b"]) :=
  (resolver_error_iff 2 true ["# makefile", "A := b"]).2 rfl

/- Lemmas about the emitted component descriptor lines (claims C1-C3). -/

theorem inclLine_not_srcs (v : VarMap) :
    strStartsWith (inclLine v) "set(COMPONENT_SRCS " = false :=
  strStartsWith_append_false _ _ _ (by decide) (by decide)

theorem inclLine_not_srcdirs (v : VarMap) :
    strStartsWith (inclLine v) "set(COMPONENT_SRCDIRS " = false :=
  strStartsWith_append_false _ _ _ (by decide) (by decide)

theorem srcdirsLine_not_srcs (d : String) :
    strStartsWith ("set(COMPONENT_SRCDIRS " ++ (d ++ ")\n\n"))
      "set(COMPONENT_SRCS " = false :=
  strStartsWith_append_false _ _ _ (by decide) (by decide)

theorem srcsLine_not_srcdirs (s : String) :
    strStartsWith ("set(COMPONENT_SRCS " ++ (s ++ ")\n\n"))
      "set(COMPONENT_SRCDIRS " = false :=
  strStartsWith_append_false _ _ _ (by decide) (by decide)

theorem hasDecl_cflagsLines (v : VarMap) (p : String)
    (ha : strStartsWith "component_compile_options(" p = false)
    (hb : strStartsWith p "component_compile_options(" = false) :
    hasDecl p (cflagsLines v) = false := by
  unfold hasDecl cflagsLines
  cases h : getVar v "CFLAGS" with
  | none => rfl
  | some c =>
    simp [strStartsWith_append_false "component_compile_options(" (c ++ ")\n") p ha hb]

theorem classifySrcdirs_eq_of_setEq (fs : FS) (cp : String) (v : VarMap) (srcs : String)
    (hsrcs : getVar v "COMPONENT_SRCS" = some srcs)
    (heq : listSetEq (componentAllSrcs fs cp v) (absComponentSrcs cp srcs) = true) :
    classifySrcdirs fs cp v = getVar v "COMPONENT_SRCDIRS" := by
  unfold classifySrcdirs
  rw [hsrcs]
  simp [heq]

theorem classifySrcdirs_none_of_setNe (fs : FS) (cp : String) (v : VarMap) (srcs : String)
    (hsrcs : getVar v "COMPONENT_SRCS" = some srcs)
    (hne : listSetEq (componentAllSrcs fs cp v) (absComponentSrcs cp srcs) = false) :
    classifySrcdirs fs cp v = none := by
  unfold classifySrcdirs
  rw [hsrcs]
  simp [hne]

theorem convert_component_written (fs : FS) (pp cp : String) (resolved : VarMap)
    (hskip : fsExists fs (pathJoin cp "CMakeLists.txt") = false) :
    (convert_component fs pp cp resolved).written =
      some (pathJoin cp "CMakeLists.txt",
        emittedLines fs cp (normVars fs cp resolved)) := by
  unfold convert_component normVars
  simp [hskip]

/-- C1 (amended): for every component whose normalized variables include an
explicit source-file list, if the glob of recognized extensions across the
declared source directories equals the absolute-normalized explicit list as a
set, and the source-directory list is actually present in the normalized
variables (which can fail only when the source list was derived from an
object-file list with no `COMPONENT_SRCDIRS`), then the emitted descriptor
carries the source-directories declaration and no explicit source-file
declaration. -/
theorem classifier_selects_srcdirs (fs : FS) (pp cp : String) (resolved : VarMap)
    (srcs dirs : String)
    (hskip : fsExists fs (pathJoin cp "CMakeLists.txt") = false)
    (hsrcs : getVar (normVars fs cp resolved) "COMPONENT_SRCS" = some srcs)
    (heq : listSetEq (componentAllSrcs fs cp (normVars fs cp resolved))
        (absComponentSrcs cp srcs) = true)
    (hdirs : getVar (normVars fs cp resolved) "COMPONENT_SRCDIRS" = some dirs) :
    (convert_component fs pp cp resolved).written =
      some (pathJoin cp "CMakeLists.txt",
        inclLine (normVars fs cp resolved) ::
          ("set(COMPONENT_SRCDIRS " ++ (dirs ++ ")\n\n")) ::
            "register_component()\n" :: cflagsLines (normVars fs cp resolved)) ∧
    hasDecl "set(COMPONENT_SRCS "
      (inclLine (normVars fs cp resolved) ::
        ("set(COMPONENT_SRCDIRS " ++ (dirs ++ ")\n\n")) ::
          "register_component()\n" :: cflagsLines (normVars fs cp resolved)) = false := by
  constructor
  · rw [convert_component_written fs pp cp resolved hskip]
    unfold emittedLines
    rw [classifySrcdirs_eq_of_setEq fs cp _ srcs hsrcs heq, hdirs, hsrcs]
    simp [bodyLines]
  · simp only [hasDecl, List.any_cons, Bool.or_eq_false_iff]
    refine ⟨inclLine_not_srcs _, srcdirsLine_not_srcs _, by decide, ?_⟩
    exact hasDecl_cflagsLines _ "set(COMPONENT_SRCS " (by decide) (by decide)

/-- Witness for `classifier_selects_srcdirs`: a component listing `a.c`, the
only source in its directory. -/
theorem classifier_selects_srcdirs_witness :
    (convert_component fsOneSrc "/p" "/p/c" resolvedOneSrc).written =
      some (pathJoin "/p/c" "CMakeLists.txt",
        inclLine (normVars fsOneSrc "/p/c" resolvedOneSrc) ::
          ("set(COMPONENT_SRCDIRS " ++ ("." ++ ")\n\n")) ::
            "register_component()\n" :: cflagsLines (normVars fsOneSrc "/p/c" resolvedOneSrc)) ∧
    hasDecl "set(COMPONENT_SRCS "
      (inclLine (normVars fsOneSrc "/p/c" resolvedOneSrc) ::
        ("set(COMPONENT_SRCDIRS " ++ ("." ++ ")\n\n")) ::
          "register_component()\n" :: cflagsLines (normVars fsOneSrc "/p/c" resolvedOneSrc)) = false :=
  classifier_selects_srcdirs fsOneSrc "/p" "/p/c" resolvedOneSrc "a.c" "."
    (by decide) (by decide) (by decide) (by decide)

/-- C1 counterexample: a component whose `COMPONENT_SRCS` comes from
`COMPONENT_OBJS` with no declared `COMPONENT_SRCDIRS`.  Its explicit source
set equals the glob set, yet `v.get("COMPONENT_SRCDIRS")` is `None` at line
176, so the emitted descriptor contains the explicit `COMPONENT_SRCS`
declaration and no source-directories declaration — contradicting the claim
that set equality alone forces the `BySourceDirs` form. -/
theorem classifier_set_equal_but_srcs_emitted :
    getVar (normVars fsObjsOnly "/proj/comp" resolvedObjsOnly) "COMPONENT_SRCS" =
      some "foo.c" ∧
    listSetEq
      (componentAllSrcs fsObjsOnly "/proj/comp"
        (normVars fsObjsOnly "/proj/comp" resolvedObjsOnly))
      (absComponentSrcs "/proj/comp" "foo.c") = true ∧
    (convert_component fsObjsOnly "/proj" "/proj/comp" resolvedObjsOnly).written =
      some ("/proj/comp/CMakeLists.txt",
        ["set(COMPONENT_ADD_INCLUDEDIRS include)\n\n",
         "set(COMPONENT_SRCS foo.c)\n\n",
         "register_component()\n"]) := by
  decide

/-- C2: for every component whose explicit source set (absolute-normalized)
differs from the glob of recognized extensions across its declared source
directories, the emitted descriptor contains exactly the original explicit
source list, passed through verbatim, and no source-directories
declaration. -/
theorem classifier_selects_srcfiles (fs : FS) (pp cp : String) (resolved : VarMap)
    (srcs : String)
    (hskip : fsExists fs (pathJoin cp "CMakeLists.txt") = false)
    (hsrcs : getVar (normVars fs cp resolved) "COMPONENT_SRCS" = some srcs)
    (hne : listSetEq (componentAllSrcs fs cp (normVars fs cp resolved))
        (absComponentSrcs cp srcs) = false) :
    (convert_component fs pp cp resolved).written =
      some (pathJoin cp "CMakeLists.txt",
        inclLine (normVars fs cp resolved) ::
          ("set(COMPONENT_SRCS " ++ (srcs ++ ")\n\n")) ::
            "register_component()\n" :: cflagsLines (normVars fs cp resolved)) ∧
    hasDecl "set(COMPONENT_SRCDIRS "
      (inclLine (normVars fs cp resolved) ::
        ("set(COMPONENT_SRCS " ++ (srcs ++ ")\n\n")) ::
          "register_component()\n" :: cflagsLines (normVars fs cp resolved)) = false := by
  constructor
  · rw [convert_component_written fs pp cp resolved hskip]
    unfold emittedLines
    rw [classifySrcdirs_none_of_setNe fs cp _ srcs hsrcs hne, hsrcs]
    simp [bodyLines]
  · simp only [hasDecl, List.any_cons, Bool.or_eq_false_iff]
    refine ⟨inclLine_not_srcdirs _, srcsLine_not_srcdirs _, by decide, ?_⟩
    exact hasDecl_cflagsLines _ "set(COMPONENT_SRCDIRS " (by decide) (by decide)

/-- Witness for `classifier_selects_srcfiles`: a component listing only `a.c`
while its directory also holds `b.c` (proper subset). -/
theorem classifier_selects_srcfiles_witness :
    (convert_component fsTwoSrc "/p" "/p/c2" resolvedTwoSrc).written =
      some (pathJoin "/p/c2" "CMakeLists.txt",
        inclLine (normVars fsTwoSrc "/p/c2" resolvedTwoSrc) ::
          ("set(COMPONENT_SRCS " ++ ("a.c" ++ ")\n\n")) ::
            "register_component()\n" :: cflagsLines (normVars fsTwoSrc "/p/c2" resolvedTwoSrc)) ∧
    hasDecl "set(COMPONENT_SRCDIRS "
      (inclLine (normVars fsTwoSrc "/p/c2" resolvedTwoSrc) ::
        ("set(COMPONENT_SRCS " ++ ("a.c" ++ ")\n\n")) ::
          "register_component()\n" :: cflagsLines (normVars fsTwoSrc "/p/c2" resolvedTwoSrc)) = false :=
  classifier_selects_srcfiles fsTwoSrc "/p" "/p/c2" resolvedTwoSrc "a.c"
    (by decide) (by decide) (by decide)

theorem normVars_no_objs (fs : FS) (cp : String) (resolved : VarMap)
    (hobjs : getVar resolved "COMPONENT_OBJS" = none) :
    normVars fs cp resolved =
      dictInsert
        (dictInsert resolved "COMPONENT_SRCDIRS"
          ((getVar resolved "COMPONENT_SRCDIRS").getD "."))
        "COMPONENT_ADD_INCLUDEDIRS"
        ((getVar (dictInsert resolved "COMPONENT_SRCDIRS"
            ((getVar resolved "COMPONENT_SRCDIRS").getD "."))
          "COMPONENT_ADD_INCLUDEDIRS").getD "include") := by
  unfold normVars get_component_variables
  rw [hobjs]

/-- C3: for every component whose resolved variables define neither an
explicit source-file list nor an object-file list, the emitted descriptor is
the registration-only form: the default include-directory declaration
(`include`, since the variable is absent), the `register_config_only_component`
directive, and no source-files or source-directories declaration. -/
theorem config_only_component (fs : FS) (pp cp : String) (resolved : VarMap)
    (hskip : fsExists fs (pathJoin cp "CMakeLists.txt") = false)
    (hsrcs : getVar resolved "COMPONENT_SRCS" = none)
    (hobjs : getVar resolved "COMPONENT_OBJS" = none)
    (hincl : getVar resolved "COMPONENT_ADD_INCLUDEDIRS" = none) :
    (convert_component fs pp cp resolved).written =
      some (pathJoin cp "CMakeLists.txt",
        "set(COMPONENT_ADD_INCLUDEDIRS include)\n\n" ::
          "register_config_only_component()\n" ::
            cflagsLines (normVars fs cp resolved)) ∧
    hasDecl "set(COMPONENT_SRCS "
      ("set(COMPONENT_ADD_INCLUDEDIRS include)\n\n" ::
        "register_config_only_component()\n" ::
          cflagsLines (normVars fs cp resolved)) = false ∧
    hasDecl "set(COMPONENT_SRCDIRS "
      ("set(COMPONENT_ADD_INCLUDEDIRS include)\n\n" ::
        "register_config_only_component()\n" ::
          cflagsLines (normVars fs cp resolved)) = false := by
  have hv := normVars_no_objs fs cp resolved hobjs
  have hsrcs2 : getVar (normVars fs cp resolved) "COMPONENT_SRCS" = none := by
    rw [hv, getVar_dictInsert_ne _ _ _ _ (by decide),
      getVar_dictInsert_ne _ _ _ _ (by decide)]
    exact hsrcs
  have hincl1 : getVar (dictInsert resolved "COMPONENT_SRCDIRS"
      ((getVar resolved "COMPONENT_SRCDIRS").getD "."))
      "COMPONENT_ADD_INCLUDEDIRS" = none := by
    rw [getVar_dictInsert_ne _ _ _ _ (by decide)]
    exact hincl
  have hincl2 : getVar (normVars fs cp resolved) "COMPONENT_ADD_INCLUDEDIRS" =
      some "include" := by
    rw [hv, getVar_dictInsert_self, hincl1]
    rfl
  refine ⟨?_, ?_, ?_⟩
  · rw [convert_component_written fs pp cp resolved hskip]
    unfold emittedLines classifySrcdirs inclLine
    rw [hsrcs2, hincl2]
    simp [bodyLines]
  · simp only [hasDecl, List.any_cons, Bool.or_eq_false_iff]
    refine ⟨by decide, by decide, ?_⟩
    exact hasDecl_cflagsLines _ "set(COMPONENT_SRCS " (by decide) (by decide)
  · simp only [hasDecl, List.any_cons, Bool.or_eq_false_iff]
    refine ⟨by decide, by decide, ?_⟩
    exact hasDecl_cflagsLines _ "set(COMPONENT_SRCDIRS " (by decide) (by decide)

/-- Witness for `config_only_component`: a component resolving nothing. -/
theorem config_only_component_witness :
    (convert_component fsNoMain "/proj" "/proj/compA" []).written =
      some (pathJoin "/proj/compA" "CMakeLists.txt",
        "set(COMPONENT_ADD_INCLUDEDIRS include)\n\n" ::
          "register_config_only_component()\n" ::
            cflagsLines (normVars fsNoMain "/proj/compA" [])) ∧
    hasDecl "set(COMPONENT_SRCS "
      ("set(COMPONENT_ADD_INCLUDEDIRS include)\n\n" ::
        "register_config_only_component()\n" ::
          cflagsLines (normVars fsNoMain "/proj/compA" [])) = false ∧
    hasDecl "set(COMPONENT_SRCDIRS "
      ("set(COMPONENT_ADD_INCLUDEDIRS include)\n\n" ::
        "register_config_only_component()\n" ::
          cflagsLines (normVars fsNoMain "/proj/compA" [])) = false :=
  config_only_component fsNoMain "/proj" "/proj/compA" []
    (by decide) (by decide) (by decide) (by decide)

/-- C6: for every component naming an explicit object-file list, the derived
source list consists exactly of the probe results, where each stem is probed
for extension `c`, then `cpp`, then `S` inside the component directory; every
stem with no match on disk is omitted (the join of the remaining probes still
succeeds) and produces exactly one warning. -/
theorem objs_derivation (fs : FS) (cp : String) (resolved : VarMap) (objs : String)
    (h : getVar resolved "COMPONENT_OBJS" = some objs) :
    getVar (normVars fs cp resolved) "COMPONENT_SRCS" =
      some (joinWith " " ((pySplit ' ' objs).filterMap (find_src fs cp))) ∧
    (get_component_variables fs cp resolved).2 =
      ((pySplit ' ' objs).filter (fun o => (find_src fs cp o).isNone)).map
        (fun o => warnMsg cp (splitextStem o)) ∧
    (∀ obj, fsExists fs (pathJoin cp (splitextStem obj) ++ ".c") = false →
      fsExists fs (pathJoin cp (splitextStem obj) ++ ".cpp") = false →
      fsExists fs (pathJoin cp (splitextStem obj) ++ ".S") = false →
      find_src fs cp obj = none) ∧
    (∀ obj, fsExists fs (pathJoin cp (splitextStem obj) ++ ".c") = true →
      find_src fs cp obj = some (splitextStem obj ++ ".c")) ∧
    (∀ obj, fsExists fs (pathJoin cp (splitextStem obj) ++ ".c") = false →
      fsExists fs (pathJoin cp (splitextStem obj) ++ ".cpp") = true →
      find_src fs cp obj = some (splitextStem obj ++ ".cpp")) ∧
    (∀ obj, fsExists fs (pathJoin cp (splitextStem obj) ++ ".c") = false →
      fsExists fs (pathJoin cp (splitextStem obj) ++ ".cpp") = false →
      fsExists fs (pathJoin cp (splitextStem obj) ++ ".S") = true →
      find_src fs cp obj = some (splitextStem obj ++ ".S")) := by
  refine ⟨?_, ?_, ?_, ?_, ?_, ?_⟩
  · unfold normVars get_component_variables
    rw [h]
    dsimp only
    rw [getVar_dictInsert_ne _ _ _ _ (by decide), getVar_dictInsert_self]
  · unfold get_component_variables
    rw [h]
  · intro obj h1 h2 h3
    unfold find_src
    simp [List.find?, h1, h2, h3]
  · intro obj h1
    unfold find_src
    simp [List.find?, h1]
  · intro obj h1 h2
    unfold find_src
    simp [List.find?, h1, h2]
  · intro obj h1 h2 h3
    unfold find_src
    simp [List.find?, h1, h2, h3]

/-- Witness for `objs_derivation`: `COMPONENT_OBJS = "x.o y.o"` with only
`x.c` on disk derives `COMPONENT_SRCS = "x.c"` and warns about `y`. -/
theorem objs_derivation_witness :
    getVar (normVars fsObjProbe "/c" resolvedObjProbe) "COMPONENT_SRCS" =
      some (joinWith " " ((pySplit ' ' "x.o y.o").filterMap (find_src fsObjProbe "/c"))) ∧
    (get_component_variables fsObjProbe "/c" resolvedObjProbe).2 =
      ((pySplit ' ' "x.o y.o").filter (fun o => (find_src fsObjProbe "/c" o).isNone)).map
        (fun o => warnMsg "/c" (splitextStem o)) ∧
    (∀ obj, fsExists fsObjProbe (pathJoin "/c" (splitextStem obj) ++ ".c") = false →
      fsExists fsObjProbe (pathJoin "/c" (splitextStem obj) ++ ".cpp") = false →
      fsExists fsObjProbe (pathJoin "/c" (splitextStem obj) ++ ".S") = false →
      find_src fsObjProbe "/c" obj = none) ∧
    (∀ obj, fsExists fsObjProbe (pathJoin "/c" (splitextStem obj) ++ ".c") = true →
      find_src fsObjProbe "/c" obj = some (splitextStem obj ++ ".c")) ∧
    (∀ obj, fsExists fsObjProbe (pathJoin "/c" (splitextStem obj) ++ ".c") = false →
      fsExists fsObjProbe (pathJoin "/c" (splitextStem obj) ++ ".cpp") = true →
      find_src fsObjProbe "/c" obj = some (splitextStem obj ++ ".cpp")) ∧
    (∀ obj, fsExists fsObjProbe (pathJoin "/c" (splitextStem obj) ++ ".c") = false →
      fsExists fsObjProbe (pathJoin "/c" (splitextStem obj) ++ ".cpp") = false →
      fsExists fsObjProbe (pathJoin "/c" (splitextStem obj) ++ ".S") = true →
      find_src fsObjProbe "/c" obj = some (splitextStem obj ++ ".S")) :=
  objs_derivation fsObjProbe "/c" resolvedObjProbe "x.o y.o" (by decide)

/-- C7: converting against already-converted targets never overwrites.  A
component whose `CMakeLists.txt` exists is skipped with a notice (writing
nothing), the component loop then continues with the remaining siblings
unchanged, and a project whose own `CMakeLists.txt` exists aborts fatally
before any file is written. -/
theorem no_overwrite_on_reconversion (fs : FS) (pp cp : String) (rest : List String)
    (resolved pvars : VarMap) (cvs : String → VarMap)
    (hc : fsExists fs (pathJoin cp "CMakeLists.txt") = true)
    (hd : fsExists fs pp = true)
    (hm : fsExists fs (pathJoin pp "Makefile") = true)
    (hp : fsExists fs (pathJoin pp "CMakeLists.txt") = true) :
    convert_component fs pp cp resolved =
      { skipped := true, resolverCalls := 0, written := none,
        msgs := ["Skipping already-converted component " ++
          (pathJoin cp "CMakeLists.txt" ++ "...")] } ∧
    convertComponents fs pp (cp :: rest) cvs =
      ((convertComponents fs pp rest cvs).1,
       (convertComponents fs pp rest cvs).2.1,
       ("Skipping already-converted component " ++
          (pathJoin cp "CMakeLists.txt" ++ "...")) ::
         (convertComponents fs pp rest cvs).2.2) ∧
    convert_project fs pp pvars cvs =
      { error := some "This project already has a CMakeLists.txt file",
        writtenFiles := [], msgs := [] } := by
  have hskip : ∀ r, convert_component fs pp cp r =
      { skipped := true, resolverCalls := 0, written := none,
        msgs := ["Skipping already-converted component " ++
          (pathJoin cp "CMakeLists.txt" ++ "...")] } := by
    intro r
    simp [convert_component, hc]
  refine ⟨hskip resolved, ?_, ?_⟩
  · simp only [convertComponents]
    rw [hskip (cvs cp)]
    simp
  · simp [convert_project, hd, hm, hp]

/-- Witness for `no_overwrite_on_reconversion` on the already-converted
project `fsConverted`. -/
theorem no_overwrite_on_reconversion_witness :
    convert_component fsConverted "/pr" "/pr/ca" [] =
      { skipped := true, resolverCalls := 0, written := none,
        msgs := ["Skipping already-converted component " ++
          (pathJoin "/pr/ca" "CMakeLists.txt" ++ "...")] } ∧
    convertComponents fsConverted "/pr" ("/pr/ca" :: ["/pr/cb"]) cvsEmpty =
      ((convertComponents fsConverted "/pr" ["/pr/cb"] cvsEmpty).1,
       (convertComponents fsConverted "/pr" ["/pr/cb"] cvsEmpty).2.1,
       ("Skipping already-converted component " ++
          (pathJoin "/pr/ca" "CMakeLists.txt" ++ "...")) ::
         (convertComponents fsConverted "/pr" ["/pr/cb"] cvsEmpty).2.2) ∧
    convert_project fsConverted "/pr" [] cvsEmpty =
      { error := some "This project already has a CMakeLists.txt file",
        writtenFiles := [], msgs := [] } :=
  no_overwrite_on_reconversion fsConverted "/pr" "/pr/ca" ["/pr/cb"] [] [] cvsEmpty
    (by decide) (by decide) (by decide) (by decide)

/-- C8 (code bug): on a project with no `main` component the code prints the
intended warning and installs a dummy `COMPONENT_SRCS`, but
`main_component_path` is never assigned (the `IndexError` fires on the
subscript before the assignment), so the rewrite of the entry sources at line
131 raises an unbound-local `NameError` after the sibling components were
already converted — the project descriptor is never emitted, contradicting
the claimed proceed-with-empty-source-list behaviour. -/
theorem no_main_component_crashes :
    convert_project fsNoMain "/proj" pvarsNoMain cvsEmpty =
      { error := some "NameError: main_component_path referenced before assignment",
        writtenFiles := [("compA/CMakeLists.txt",
          ["set(COMPONENT_ADD_INCLUDEDIRS include)\n\n",
           "register_config_only_component()\n"])],
        msgs := ["WARNING: Project has no \x27main\x27 component, but CMake-based system requires at least one file in MAIN_SRCS...",
                 "Converted compA/CMakeLists.txt"] } := by
  decide

/-- C9: on a successful conversion, the project descriptor consists of exactly
the fixed preamble, the `MAIN_SRCS` list holding the entry component's
resolved sources rewritten to project-relative paths, the shared include
directive, and the resolved project-name declaration — the other converted
components are not listed in it. -/
theorem project_descriptor_content (fs : FS) (pp : String) (pvars : VarMap)
    (cvs : String → VarMap) (name cpstr mp srcsStr : String)
    (hd : fsExists fs pp = true)
    (hm : fsExists fs (pathJoin pp "Makefile") = true)
    (hc : fsExists fs (pathJoin pp "CMakeLists.txt") = false)
    (hn : getVar pvars "PROJECT_NAME" = some name)
    (hcp : getVar pvars "COMPONENT_PATHS" = some cpstr)
    (hmain : ((pySplit ' ' cpstr).filter (fun p => basenameOf p == "main")).head? = some mp)
    (hsrcs : getVar (normVars fs mp (cvs mp)) "COMPONENT_SRCS" = some srcsStr) :
    (convert_project fs pp pvars cvs).error = none ∧
    (convert_project fs pp pvars cvs).writtenFiles =
      (convertComponents fs pp
          ((pySplit ' ' cpstr).filter (fun p => basenameOf p != "main")) cvs).2.1 ++
        [(pathJoin pp "CMakeLists.txt",
          [projectPreamble,
           "set(MAIN_SRCS " ++ (joinWith " " (mainRelSrcs pp mp srcsStr) ++ ")\n"),
           projectIncludeLine,
           "project(" ++ (name ++ ")\n")])] := by
  unfold convert_project
  simp [hd, hm, hc, hn, hcp, hmain, hsrcs, projectFileLines]

/-- Witness for `project_descriptor_content` on the single-component project
`fsMainOnly`. -/
theorem project_descriptor_content_witness :
    (convert_project fsMainOnly "/proj" pvarsMainOnly cvsMainOnly).error = none ∧
    (convert_project fsMainOnly "/proj" pvarsMainOnly cvsMainOnly).writtenFiles =
      (convertComponents fsMainOnly "/proj"
          ((pySplit ' ' "/proj/main").filter (fun p => basenameOf p != "main")) cvsMainOnly).2.1 ++
        [(pathJoin "/proj" "CMakeLists.txt",
          [projectPreamble,
           "set(MAIN_SRCS " ++ (joinWith " " (mainRelSrcs "/proj" "/proj/main" "main.c") ++ ")\n"),
           projectIncludeLine,
           "project(" ++ ("demo" ++ ")\n")])] :=
  project_descriptor_content fsMainOnly "/proj" pvarsMainOnly cvsMainOnly
    "demo" "/proj/main" "/proj/main" "main.c"
    (by decide) (by decide) (by decide) (by decide) (by decide) (by decide) (by decide)

/-- C10: when a component's target descriptor already exists the skip happens
before any variable resolution: no oracle subprocess is recorded, nothing is
written, and the result does not depend on what the oracle would have
returned. -/
theorem skip_before_resolution (fs : FS) (pp cp : String) (resolved : VarMap)
    (h : fsExists fs (pathJoin cp "CMakeLists.txt") = true) :
    convert_component fs pp cp resolved =
      { skipped := true, resolverCalls := 0, written := none,
        msgs := ["Skipping already-converted component " ++
          (pathJoin cp "CMakeLists.txt" ++ "...")] } ∧
    (∀ resolved2, convert_component fs pp cp resolved2 =
      convert_component fs pp cp resolved) := by
  constructor
  · simp [convert_component, h]
  · intro resolved2
    simp [convert_component, h]

/-- Witness for `skip_before_resolution`. -/
theorem skip_before_resolution_witness :
    convert_component fsConverted "/pr2" "/pr/ca" [("COMPONENT_SRCS", "z.c")] =
      { skipped := true, resolverCalls := 0, written := none,
        msgs := ["Skipping already-converted component " ++
          (pathJoin "/pr/ca" "CMakeLists.txt" ++ "...")] } ∧
    (∀ resolved2, convert_component fsConverted "/pr2" "/pr/ca" resolved2 =
      convert_component fsConverted "/pr2" "/pr/ca" [("COMPONENT_SRCS", "z.c")]) :=
  skip_before_resolution fsConverted "/pr2" "/pr/ca" [("COMPONENT_SRCS", "z.c")] (by decide)

end ConvertToCmake
